import Mathlib

/-
Verification development for the ClueMeister ranking agent
(source file: ClueMeisterRANK.py).

Modelling conventions:
- Python strings are Lean `String`; the character-level operations
  (`str.split`, `str.strip`, `float(...)`) are implemented over `List Char`
  with fuel-based structural recursion so that the kernel can evaluate them.
- Python floats are idealised as exact rationals (ℚ); the distances and
  scores computed with `math.sqrt` live in ℝ (`Real.sqrt`).
- The knowledge base (`kb.get_clues()`) is modelled as an association list
  `List (Int × String)` of clue id / description pairs, in iteration order.
- The agent object is the record `AgentState` (its `path` and `status`
  fields); `process_request` threads the state explicitly.
- Every modelled handler is a total function, so the `except` branch of
  `process_request` has no counterpart: no modelled operation can raise.
-/

/-! ### Character-level string primitives (Python `split` / `strip` / `float`) -/

/-- Python `s.split(sep)` for a non-empty separator, on character lists:
scan left to right, break at each leftmost non-overlapping occurrence of
`sep`.  Fuel-based so the kernel can evaluate it; `fuel = s.length + 1`
always suffices because each step consumes at least one character. -/
def pySplitAux (sep : List Char) : Nat → List Char → List Char → List (List Char)
  | 0, acc, _ => [acc.reverse]
  | fuel + 1, acc, s =>
    if List.isPrefixOf sep s then
      acc.reverse :: pySplitAux sep fuel [] (s.drop sep.length)
    else
      match s with
      | [] => [acc.reverse]
      | c :: rest => pySplitAux sep fuel (c :: acc) rest

/-- Python `s.split(sep)` (non-empty `sep`). -/
def pySplit (sep s : List Char) : List (List Char) :=
  pySplitAux sep (s.length + 1) [] s

/-- Python `s.strip()`: drop whitespace from both ends. -/
def pyStrip (s : List Char) : List Char :=
  ((s.dropWhile Char.isWhitespace).reverse.dropWhile Char.isWhitespace).reverse

/-- Numeric value of a digit string (digits are validated separately). -/
def digitsVal (cs : List Char) : Nat :=
  cs.foldl (fun a c => 10 * a + (c.toNat - 48)) 0

/-- A non-empty all-digit string. -/
def isDigits (cs : List Char) : Bool :=
  !cs.isEmpty && cs.all (fun c => c.isDigit)

/-- Mantissa of a Python float literal: `digits`, `digits.digits`,
`digits.` or `.digits` (at least one digit overall). -/
def parseMantissa (cs : List Char) : Option ℚ :=
  match pySplit ['.'] cs with
  | [ip] => if isDigits ip then some ((digitsVal ip : ℚ)) else none
  | [ip, fp] =>
    if (ip.all (fun c => c.isDigit)) && (fp.all (fun c => c.isDigit))
        && !(ip.isEmpty && fp.isEmpty)
    then some ((digitsVal (ip ++ fp) : ℚ) / (10 : ℚ) ^ fp.length)
    else none
  | _ => none

/-- Mantissa with an optional leading sign. -/
def parseSignedMantissa (cs : List Char) : Option ℚ :=
  match cs with
  | '-' :: rest => (parseMantissa rest).map (fun q => -q)
  | '+' :: rest => parseMantissa rest
  | _ => parseMantissa cs

/-- Signed decimal integer (for the exponent part). -/
def parseSignedInt (cs : List Char) : Option ℤ :=
  match cs with
  | '-' :: rest => if isDigits rest then some (-(digitsVal rest : ℤ)) else none
  | '+' :: rest => if isDigits rest then some ((digitsVal rest : ℤ)) else none
  | _ => if isDigits cs then some ((digitsVal cs : ℤ)) else none

/-- Python `float(s)` on the decimal / scientific notation accepted by the
source's clue descriptions: optional sign, decimal mantissa, optional
`e`/`E` exponent.  Returns `none` exactly when Python's `float` would raise
`ValueError` on such input (exotic forms — `inf`, `nan`, digit underscores —
do not occur in this code base and are out of scope). -/
def pyFloat (s : String) : Option ℚ :=
  let cs := s.data.map Char.toLower
  match pySplit ['e'] cs with
  | [m] => parseSignedMantissa m
  | [m, ex] =>
    match parseSignedMantissa m, parseSignedInt ex with
    | some mv, some ev => some (mv * (10 : ℚ) ^ ev)
    | _, _ => none
  | _ => none

/-! ### Data model -/

/-- A 2-D coordinate `(lat, lon)`; Python floats idealised as rationals. -/
abbrev Coord := ℚ × ℚ

/-- The mutable fields of the `ClueMeisterAgent` object:
`self.path` and `self.status`. -/
structure AgentState where
  path : List Coord
  status : String
deriving DecidableEq

/-- `__init__`: `self.path = []`, `self.status = "initialized"`. -/
def initState : AgentState :=
  AgentState.mk [] "initialized"

/-- The `ClueMessage` TypedDict (`total=False`): each key may be absent
(`none`) or present with a value.  `message.get(k)` returns `none`-as-falsy
for an absent key. -/
structure ClueMessage where
  get_clues : Option Bool
  get_status : Option Bool
  update_path : Option (List Coord)
  rank_clues : Option Bool

/-- Python truthiness of `message.get(key)`: `None` is falsy, a `bool`
is its own truth value. -/
def truthy (o : Option Bool) : Bool :=
  o.getD false

/-- One ranked output record `{"id": ..., "description": ..., "score": ...}`. -/
structure RankedClue where
  id : Int
  description : String
  score : ℝ

/-- The possible response dictionaries returned by the handlers. -/
inductive Response where
  | clues (cs : List (Int × String))
  | status (s : String)
  | pathUpdated (s : String) (path_length : Nat)
  | ranked (rs : List RankedClue)
  | error (msg : String)

/-! ### The ranking engine -/

/-- `CLUE_TYPE_POINTS`, the fixed clue-type points dict. -/
def CLUE_TYPE_POINTS : List (String × Nat) :=
  [("IR signature", 30), ("red hat", 20), ("footprint", 10), ("unknown", 5)]

/-- `dict.get(k, default)` on an association list. -/
def dictGetD (d : List (String × Nat)) (k : String) (default : Nat) : Nat :=
  (List.lookup k d).getD default

/-- The coordinate-extraction `try` block of `_parse_clue`:
`lat_str, lon_str = parts[1].split(",")` (exactly two components, else the
unpacking raises) followed by `float(lat_str.strip()), float(lon_str.strip())`.
`none` models the caught exception. -/
def parseCoord (s : List Char) : Option Coord :=
  match pySplit [','] s with
  | [a, b] =>
    match pyFloat (String.mk (pyStrip a)), pyFloat (String.mk (pyStrip b)) with
    | some x, some y => some (x, y)
    | _, _ => none
  | _ => none

/-- `_parse_clue(desc)`: split on `" at "`; with at least two parts the type
is `parts[0].strip()` and the coordinate comes from `parts[1]` via the `try`
block (defaulting to `(0.0, 0.0)` on failure); with a single part the type is
`"unknown"` and the `try` block fails at `parts[1]` (IndexError), giving
`(0.0, 0.0)`. -/
def _parse_clue (desc : String) : String × Coord :=
  match pySplit (" at ").data desc.data with
  | p0 :: p1 :: _ => (String.mk (pyStrip p0), (parseCoord p1).getD (0, 0))
  | _ => ("unknown", (0, 0))

/-- `_euclidean_distance(p1, p2) = math.sqrt((p1[0]-p2[0])**2 + (p1[1]-p2[1])**2)`. -/
noncomputable def _euclidean_distance (p1 p2 : Coord) : ℝ :=
  Real.sqrt (((p1.1 : ℝ) - (p2.1 : ℝ)) ^ 2 + ((p1.2 : ℝ) - (p2.2 : ℝ)) ^ 2)

/-- The fold computing `min(self._euclidean_distance(coord, p) for p in path)`
over a non-empty path `p :: ps`. -/
noncomputable def _min_distance_cons (coord p : Coord) (ps : List Coord) : ℝ :=
  (ps.map (_euclidean_distance coord)).foldl min (_euclidean_distance coord p)

/-- `_min_distance_to_path(coord)`: `min` over the distances to every path
point; on an empty path Python's `min` of an empty generator raises
`ValueError`, modelled as `none`. -/
noncomputable def _min_distance_to_path (path : List Coord) (coord : Coord) : Option ℝ :=
  match path with
  | [] => none
  | p :: ps => some (_min_distance_cons coord p ps)

/-- The body of the ranking loop for one clue `(cid, desc)`:
type lookup (`CLUE_TYPE_POINTS.get(clue_type, CLUE_TYPE_POINTS["unknown"])`),
minimum distance to the (non-empty) path, proximity bonus
`max(0, 100 - distance)`, and total score. -/
noncomputable def scoreClue (p : Coord) (ps : List Coord) (cd : Int × String) : RankedClue :=
  let parsed := _parse_clue cd.2
  let score := dictGetD CLUE_TYPE_POINTS parsed.1 (dictGetD CLUE_TYPE_POINTS "unknown" 0)
  let distance := _min_distance_cons parsed.2 p ps
  let proximity_score := max 0 ((100 : ℝ) - distance)
  RankedClue.mk cd.1 cd.2 ((score : ℝ) + proximity_score)

/-- `ranked.sort(key=lambda x: x[2], reverse=True)`: stable descending sort
by score. -/
noncomputable def sortRanked (l : List RankedClue) : List RankedClue :=
  l.mergeSort (fun a b => decide (b.score ≤ a.score))

/-- `rank_clues()`: structured error on an empty path, otherwise score every
clue of the knowledge base and sort descending by score. -/
noncomputable def rank_clues (kb : List (Int × String)) (st : AgentState) : Response :=
  match st.path with
  | [] => Response.error "Path is not set"
  | p :: ps => Response.ranked (sortRanked (kb.map (scoreClue p ps)))

/-- `clues_to_text()`: wraps the knowledge base's clues. -/
def clues_to_text (kb : List (Int × String)) : Response :=
  Response.clues kb

/-- `process_request(message)`: sequential dispatch on the message keys, in
source order; returns the successor state and the response. -/
noncomputable def process_request (kb : List (Int × String)) (st : AgentState)
    (msg : ClueMessage) : AgentState × Response :=
  if truthy msg.get_clues then (st, clues_to_text kb)
  else if truthy msg.get_status then (st, Response.status st.status)
  else
    match msg.update_path with
    | some p => (AgentState.mk p st.status, Response.pathUpdated "path updated" p.length)
    | none =>
      if truthy msg.rank_clues then (st, rank_clues kb st)
      else (st, Response.error "Unknown request type")

/-- Spec-side variant of `_parse_clue` for the refinement comparison: the
coordinate is derived from the ENTIRE text after the first `" at "`
separator (the remaining split fields re-joined with the separator), as the
spec sentence describes, rather than from `parts[1]` alone. -/
def spec_parse_clue (desc : String) : String × Coord :=
  match pySplit (" at ").data desc.data with
  | p0 :: p1 :: rest =>
    (String.mk (pyStrip p0),
      (parseCoord (List.intercalate (" at ").data (p1 :: rest))).getD (0, 0))
  | _ => ("unknown", (0, 0))

/-! ### Helper lemmas -/

lemma foldl_min_le_init (l : List ℝ) (a : ℝ) : l.foldl min a ≤ a := by
  induction l generalizing a with
  | nil => simp
  | cons x xs ih => exact le_trans (ih (min a x)) (min_le_left a x)

lemma foldl_min_le_mem (l : List ℝ) (a : ℝ) : ∀ x ∈ l, l.foldl min a ≤ x := by
  induction l generalizing a with
  | nil => simp
  | cons y ys ih =>
    intro x hx
    rcases List.mem_cons.mp hx with h1 | h1
    · subst h1
      exact le_trans (foldl_min_le_init ys (min a x)) (min_le_right a x)
    · exact ih (min a y) x h1

lemma foldl_min_eq_or_mem (l : List ℝ) (a : ℝ) : l.foldl min a = a ∨ l.foldl min a ∈ l := by
  induction l generalizing a with
  | nil => left; rfl
  | cons y ys ih =>
    rcases ih (min a y) with h | h
    · rcases min_choice a y with h2 | h2
      · left
        calc (y :: ys).foldl min a = ys.foldl min (min a y) := rfl
        _ = min a y := h
        _ = a := h2
      · right
        rw [List.mem_cons]
        left
        rw [show (y :: ys).foldl min a = ys.foldl min (min a y) from rfl, h, h2]
    · right
      exact List.mem_cons_of_mem y h

lemma lookup_unknown_default (t : String) :
    dictGetD CLUE_TYPE_POINTS t (dictGetD CLUE_TYPE_POINTS "unknown" 0)
      = (List.lookup t CLUE_TYPE_POINTS).getD 5 := by
  have h : dictGetD CLUE_TYPE_POINTS "unknown" 0 = 5 := by decide
  rw [h]
  rfl

/-! ### Claim theorems -/

/-- C2: `rank_clues` returns the structured error `"Path is not set"`
exactly when the stored path is empty, and with a non-empty path it returns
a ranked list (the handlers are total, so nothing is raised to the caller). -/
theorem clue_C2 (kb : List (Int × String)) (st : AgentState) :
    (st.path = [] ↔ rank_clues kb st = Response.error "Path is not set")
    ∧ (st.path ≠ [] ↔ ∃ rs, rank_clues kb st = Response.ranked rs) := by
  cases hp : st.path with
  | nil =>
    constructor
    · constructor
      · intro _
        unfold rank_clues
        rw [hp]
      · intro _
        rfl
    · constructor
      · intro h
        exact absurd rfl h
      · rintro ⟨rs, hrs⟩
        unfold rank_clues at hrs
        rw [hp] at hrs
        exact absurd hrs (by simp)
  | cons p ps =>
    constructor
    · constructor
      · intro h
        exact absurd h (by simp)
      · intro h
        unfold rank_clues at h
        rw [hp] at h
        exact absurd h (by simp)
    · constructor
      · intro _
        refine ⟨sortRanked (kb.map (scoreClue p ps)), ?_⟩
        unfold rank_clues
        rw [hp]
      · intro _
        simp

/-- C2 witness: concrete instances of both directions. -/
theorem clue_C2_witness :
    rank_clues [] (AgentState.mk [] "initialized") = Response.error "Path is not set"
    ∧ ∃ rs, rank_clues [] (AgentState.mk [((0 : ℚ), 0)] "initialized") = Response.ranked rs := by
  constructor
  · exact (clue_C2 [] (AgentState.mk [] "initialized")).1.mp rfl
  · exact (clue_C2 [] (AgentState.mk [((0 : ℚ), 0)] "initialized")).2.mp (by simp)

/-- C7: an `update_path` request replaces the stored path in full with `P`
(any finite list, the empty list included), returns the
`"path updated"` / `path_length` response, and a `rank_clues` call issued
afterwards reads exactly the new path — `rank_clues` depends on the state
only through its `path` field, so no stale path can be used. -/
theorem clue_C7 (kb kb2 : List (Int × String)) (st : AgentState) (P : List Coord) :
    process_request kb st (ClueMessage.mk none none (some P) none)
      = (AgentState.mk P st.status, Response.pathUpdated "path updated" P.length)
    ∧ (process_request kb2 (AgentState.mk P st.status)
        (ClueMessage.mk none none none (some true))).2
      = rank_clues kb2 (AgentState.mk P st.status)
    ∧ (∀ s1 s2 : AgentState, s1.path = s2.path → rank_clues kb2 s1 = rank_clues kb2 s2) := by
  refine ⟨?_, ?_, ?_⟩
  · simp [process_request, truthy]
  · simp [process_request, truthy]
  · intro s1 s2 h
    unfold rank_clues
    rw [h]

/-- C7 witness: a concrete path update followed by the path-only dependence
of ranking. -/
theorem clue_C7_witness :
    process_request [] initState (ClueMessage.mk none none (some [((1 : ℚ), 2)]) none)
      = (AgentState.mk [((1 : ℚ), 2)] "initialized", Response.pathUpdated "path updated" 1)
    ∧ rank_clues [] (AgentState.mk [((1 : ℚ), 2)] "a")
      = rank_clues [] (AgentState.mk [((1 : ℚ), 2)] "b") := by
  obtain ⟨h1, _, h3⟩ := clue_C7 [] [] initState [((1 : ℚ), 2)]
  exact ⟨h1, h3 (AgentState.mk [((1 : ℚ), 2)] "a") (AgentState.mk [((1 : ℚ), 2)] "b") rfl⟩

/-- C8 counterexample: starting from the initial state, processing an
`update_path` request and then a `get_status` request returns
`{"status": "initialized"}`, not `{"status": "path updated"}` — the stored
`status` field is never mutated by `process_request`. -/
theorem clue_C8_counterexample :
    (process_request []
        ((process_request [] initState (ClueMessage.mk none none (some [((0 : ℚ), 0)]) none)).1)
        (ClueMessage.mk none (some true) none none)).2
      = Response.status "initialized"
    ∧ Response.status "initialized" ≠ Response.status "path updated" := by
  constructor
  · rfl
  · intro h
    rw [Response.status.injEq] at h
    exact absurd h (by decide)

/-- C8 (amended): the agent's `status` field starts as `"initialized"` and
is never changed by `process_request`; a `get_status` request returns the
unchanged stored status both before and after an `update_path` request (the
string `"path updated"` appears only in the immediate `update_path`
response, never in the stored field). -/
theorem clue_C8 :
    initState.status = "initialized"
    ∧ (∀ (kb : List (Int × String)) (st : AgentState) (msg : ClueMessage),
        ((process_request kb st msg).1).status = st.status)
    ∧ (∀ (kb kb2 : List (Int × String)) (st : AgentState) (P : List Coord),
        (process_request kb2
            ((process_request kb st (ClueMessage.mk none none (some P) none)).1)
            (ClueMessage.mk none (some true) none none)).2
          = Response.status st.status)
    ∧ (∀ kb : List (Int × String),
        (process_request kb initState (ClueMessage.mk none (some true) none none)).2
          = Response.status "initialized") := by
  have hstat : ∀ (kb : List (Int × String)) (st : AgentState) (msg : ClueMessage),
      ((process_request kb st msg).1).status = st.status := by
    intro kb st msg
    rcases msg with ⟨gc, gs, up, rc⟩
    by_cases h1 : truthy gc
    · simp [process_request, h1]
    · by_cases h2 : truthy gs
      · simp [process_request, h1, h2]
      · cases up with
        | some P => simp [process_request, h1, h2]
        | none =>
          by_cases h3 : truthy rc
          · simp [process_request, h1, h2, h3]
          · simp [process_request, h1, h2, h3]
  refine ⟨rfl, hstat, ?_, ?_⟩
  · intro kb kb2 st P
    have h := hstat kb st (ClueMessage.mk none none (some P) none)
    simp [process_request, truthy, h]
  · intro kb
    rfl

/-- C10: `process_request` dispatches in source order — truthiness of
`get_clues`, then truthiness of `get_status`, then mere presence of
`update_path` (any value, the empty list included), then truthiness of
`rank_clues` — first passing test wins and later keys are ignored; if no
test passes (e.g. `rank_clues = false`) the result is the
`"Unknown request type"` error. -/
theorem clue_C10 (kb : List (Int × String)) (st : AgentState) (msg : ClueMessage) :
    (truthy msg.get_clues = true → process_request kb st msg = (st, Response.clues kb))
    ∧ (truthy msg.get_clues = false → truthy msg.get_status = true →
        process_request kb st msg = (st, Response.status st.status))
    ∧ (truthy msg.get_clues = false → truthy msg.get_status = false →
        ∀ P, msg.update_path = some P →
          process_request kb st msg
            = (AgentState.mk P st.status, Response.pathUpdated "path updated" P.length))
    ∧ (truthy msg.get_clues = false → truthy msg.get_status = false →
        msg.update_path = none → truthy msg.rank_clues = true →
        process_request kb st msg = (st, rank_clues kb st))
    ∧ (truthy msg.get_clues = false → truthy msg.get_status = false →
        msg.update_path = none → truthy msg.rank_clues = false →
        process_request kb st msg = (st, Response.error "Unknown request type")) := by
  refine ⟨?_, ?_, ?_, ?_, ?_⟩
  · intro h1
    simp [process_request, h1, clues_to_text]
  · intro h1 h2
    simp [process_request, h1, h2]
  · intro h1 h2 P hP
    simp [process_request, h1, h2, hP]
  · intro h1 h2 h3 h4
    simp [process_request, h1, h2, h3, h4]
  · intro h1 h2 h3 h4
    simp [process_request, h1, h2, h3, h4]

/-- C10 witness: with every key set, the `get_clues` handler wins; mere
presence of an empty `update_path` selects the path update; a message whose
only key is `rank_clues = false` falls through to the unknown-request
error. -/
theorem clue_C10_witness :
    process_request [] initState (ClueMessage.mk (some true) (some true) (some []) (some true))
      = (initState, Response.clues [])
    ∧ process_request [] initState (ClueMessage.mk none none (some []) none)
      = (AgentState.mk [] "initialized", Response.pathUpdated "path updated" 0)
    ∧ process_request [] initState (ClueMessage.mk none none none (some false))
      = (initState, Response.error "Unknown request type") := by
  refine ⟨?_, ?_, ?_⟩
  · exact (clue_C10 [] initState
      (ClueMessage.mk (some true) (some true) (some []) (some true))).1 rfl
  · exact (clue_C10 [] initState
      (ClueMessage.mk none none (some []) none)).2.2.1 rfl rfl [] rfl
  · exact (clue_C10 [] initState
      (ClueMessage.mk none none none (some false))).2.2.2.2 rfl rfl rfl rfl

/-- C5: `_parse_clue` degrades softly (it is a total function): when the
`" at "` separator is absent (the split yields fewer than two parts) the
result is `("unknown", (0, 0))`; when the separator is present but the
coordinate text is malformed (the `try` block fails) the coordinate defaults
to `(0, 0)` while the trimmed type text before the separator is retained —
the two failure domains are independent, as the concrete example
`"footprint at not-a-number,also-bad"` shows. -/
theorem clue_C5 :
    (∀ desc : String, (pySplit (" at ").data desc.data).length < 2 →
        _parse_clue desc = ("unknown", (0, 0)))
    ∧ (∀ (desc : String) (p0 p1 : List Char) (rest : List (List Char)),
        pySplit (" at ").data desc.data = p0 :: p1 :: rest →
        parseCoord p1 = none →
        _parse_clue desc = (String.mk (pyStrip p0), (0, 0)))
    ∧ _parse_clue "footprint at not-a-number,also-bad" = ("footprint", (0, 0)) := by
  refine ⟨?_, ?_, by decide⟩
  · intro desc h
    unfold _parse_clue
    cases hs : pySplit (" at ").data desc.data with
    | nil => rfl
    | cons a tl =>
      cases tl with
      | nil => rfl
      | cons b tl2 =>
        rw [hs] at h
        simp only [List.length_cons] at h
        omega
  · intro desc p0 p1 rest hs hc
    unfold _parse_clue
    rw [hs]
    show (String.mk (pyStrip p0), (parseCoord p1).getD (0, 0))
      = (String.mk (pyStrip p0), ((0 : ℚ), (0 : ℚ)))
    rw [hc]
    rfl

/-- C5 witness: a description with no separator, and a description whose
coordinate text is malformed while its type is retained. -/
theorem clue_C5_witness :
    _parse_clue "mystery object" = ("unknown", (0, 0))
    ∧ _parse_clue "red hat at bogus" = ("red hat", (0, 0)) := by
  obtain ⟨h1, h2, _⟩ := clue_C5
  constructor
  · exact h1 "mystery object" (by decide)
  · exact h2 "red hat at bogus" ("red hat").data ("bogus").data [] (by decide) (by decide)

/-- C6 counterexample: on `"red hat at 1,2 at 3"` the code takes the
coordinate from `parts[1]` — the text between the first and second
occurrences of the separator — and yields `(1, 2)`, while deriving it from
the ENTIRE text after the first separator (as the claim states, rendered by
`spec_parse_clue`) would fail to parse `"2 at 3"` and yield `(0, 0)`. -/
theorem clue_C6_counterexample :
    _parse_clue "red hat at 1,2 at 3" = ("red hat", ((1 : ℚ), (2 : ℚ)))
    ∧ spec_parse_clue "red hat at 1,2 at 3" = ("red hat", ((0 : ℚ), (0 : ℚ)))
    ∧ ((1 : ℚ), (2 : ℚ)) ≠ ((0 : ℚ), (0 : ℚ)) := by
  refine ⟨by decide, by decide, by decide⟩

/-- C6 (amended): for every description containing the separator `" at "`,
`_parse_clue` returns the whitespace-trimmed text before the first separator
as the type, and derives the coordinate from `parts[1]` — the split field
between the first and the (possible) second occurrence of the separator —
by splitting it on `","` into exactly two components, trimming each and
parsing it as a float, defaulting to `(0, 0)` if that fails. -/
theorem clue_C6 (desc : String) (p0 p1 : List Char) (rest : List (List Char))
    (hs : pySplit (" at ").data desc.data = p0 :: p1 :: rest) :
    _parse_clue desc = (String.mk (pyStrip p0), (parseCoord p1).getD (0, 0)) := by
  unfold _parse_clue
  rw [hs]

/-- C6 witness: the spec's own example, `"red hat at 45.2,-121.3"`, parses
to type `"red hat"` and coordinate `(45.2, -121.3)`. -/
theorem clue_C6_witness :
    _parse_clue "red hat at 45.2,-121.3" = ("red hat", ((45.2 : ℚ), (-121.3 : ℚ))) := by
  have h := clue_C6 "red hat at 45.2,-121.3" ("red hat").data ("45.2,-121.3").data []
    (by decide)
  rw [h]
  have hc : parseCoord ("45.2,-121.3").data
      = some (((452 : ℕ) : ℚ) / (10 : ℚ) ^ 1, -(((1213 : ℕ) : ℚ) / (10 : ℚ) ^ 1)) := rfl
  rw [hc]
  refine Prod.ext (by decide) (Prod.ext ?_ ?_)
  · show ((452 : ℕ) : ℚ) / (10 : ℚ) ^ 1 = (45.2 : ℚ)
    norm_num
  · show -(((1213 : ℕ) : ℚ) / (10 : ℚ) ^ 1) = (-121.3 : ℚ)
    norm_num

/-- C9: `rank_clues` with an empty path returns the structured error before
any distance is computed, so the empty-`min` fault of
`_min_distance_to_path` is unreachable during ranking; and on a non-empty
path `_min_distance_to_path` is total (`some`) and returns the minimum
Euclidean distance from the coordinate to the path's vertices. -/
theorem clue_C9 (path : List Coord) (coord : Coord) (h : path ≠ []) :
    (∀ (kb : List (Int × String)) (s : AgentState), s.path = [] →
        rank_clues kb s = Response.error "Path is not set")
    ∧ ∃ d, _min_distance_to_path path coord = some d
        ∧ (∀ q ∈ path, d ≤ _euclidean_distance coord q)
        ∧ (∃ q ∈ path, d = _euclidean_distance coord q) := by
  constructor
  · intro kb s hs
    unfold rank_clues
    rw [hs]
  · cases path with
    | nil => exact absurd rfl h
    | cons p ps =>
      refine ⟨_min_distance_cons coord p ps, rfl, ?_, ?_⟩
      · intro q hq
        rcases List.mem_cons.mp hq with h1 | h1
        · subst h1
          exact foldl_min_le_init (ps.map (_euclidean_distance coord))
            (_euclidean_distance coord q)
        · exact foldl_min_le_mem (ps.map (_euclidean_distance coord))
            (_euclidean_distance coord p) (_euclidean_distance coord q)
            (List.mem_map_of_mem (_euclidean_distance coord) h1)
      · rcases foldl_min_eq_or_mem (ps.map (_euclidean_distance coord))
          (_euclidean_distance coord p) with h1 | h1
        · exact ⟨p, List.mem_cons_self p ps, h1⟩
        · obtain ⟨q, hq, hq2⟩ := List.mem_map.mp h1
          exact ⟨q, List.mem_cons_of_mem p hq, hq2.symm⟩

/-- C9 witness: empty-path ranking errors out, and the minimum distance on
the concrete path `[(0, 0)]` is defined and bounds the vertex distance. -/
theorem clue_C9_witness :
    rank_clues [((7 : ℤ), "w")] (AgentState.mk [] "s") = Response.error "Path is not set"
    ∧ ∃ d, _min_distance_to_path [((0 : ℚ), 0)] ((3 : ℚ), 4) = some d
        ∧ ∀ q ∈ [((0 : ℚ), 0)], d ≤ _euclidean_distance ((3 : ℚ), 4) q := by
  obtain ⟨h1, d, hd, hle, _⟩ := clue_C9 [((0 : ℚ), 0)] ((3 : ℚ), 4) (by simp)
  exact ⟨h1 [((7 : ℤ), "w")] (AgentState.mk [] "s") rfl, d, hd, hle⟩

/-- C3: with a non-empty path the list returned by `rank_clues` is sorted by
score in descending order: every adjacent pair `(A, B)` satisfies
`score B ≤ score A`. -/
theorem clue_C3 (kb : List (Int × String)) (st : AgentState) (h : st.path ≠ []) :
    ∃ rs, rank_clues kb st = Response.ranked rs
      ∧ List.Chain' (fun a b : RankedClue => b.score ≤ a.score) rs := by
  cases hp : st.path with
  | nil => exact absurd hp h
  | cons p ps =>
    refine ⟨sortRanked (kb.map (scoreClue p ps)), ?_, ?_⟩
    · unfold rank_clues
      rw [hp]
    · unfold sortRanked
      have htrans : ∀ a b c : RankedClue,
          decide (b.score ≤ a.score) = true → decide (c.score ≤ b.score) = true →
          decide (c.score ≤ a.score) = true := by
        intro a b c hab hbc
        rw [decide_eq_true_eq] at hab hbc ⊢
        exact le_trans hbc hab
      have htotal : ∀ a b : RankedClue,
          (decide (b.score ≤ a.score) || decide (a.score ≤ b.score)) = true := by
        intro a b
        rcases le_total b.score a.score with h1 | h1 <;> simp [h1]
      have hs := @List.sorted_mergeSort RankedClue
        (fun a b => decide (b.score ≤ a.score)) htrans htotal (kb.map (scoreClue p ps))
      have hs2 : List.Pairwise (fun a b : RankedClue => b.score ≤ a.score)
          ((kb.map (scoreClue p ps)).mergeSort (fun a b => decide (b.score ≤ a.score))) :=
        hs.imp (fun hab => of_decide_eq_true hab)
      exact hs2.chain'

/-- C3 witness: a concrete non-empty path yields a ranked, descending list. -/
theorem clue_C3_witness :
    ∃ rs, rank_clues [((1 : ℤ), "x")] (AgentState.mk [((0 : ℚ), 0)] "s")
        = Response.ranked rs
      ∧ List.Chain' (fun a b : RankedClue => b.score ≤ a.score) rs :=
  clue_C3 [((1 : ℤ), "x")] (AgentState.mk [((0 : ℚ), 0)] "s") (by simp)

/-- C4: with a non-empty path, `rank_clues` returns a permutation of the
per-clue scored records — exactly one record per input clue, none dropped,
none duplicated — and each record carries the clue's id, its original
description, and its score. -/
theorem clue_C4 (kb : List (Int × String)) (st : AgentState) (h : st.path ≠ []) :
    ∃ p ps rs, st.path = p :: ps
      ∧ rank_clues kb st = Response.ranked rs
      ∧ rs.Perm (kb.map (scoreClue p ps))
      ∧ ∀ cd ∈ kb, (scoreClue p ps cd).id = cd.1
          ∧ (scoreClue p ps cd).description = cd.2 := by
  cases hp : st.path with
  | nil => exact absurd hp h
  | cons p ps =>
    refine ⟨p, ps, sortRanked (kb.map (scoreClue p ps)), rfl, ?_, ?_, ?_⟩
    · unfold rank_clues
      rw [hp]
    · exact List.mergeSort_perm (kb.map (scoreClue p ps)) _
    · intro cd _
      exact ⟨rfl, rfl⟩

/-- C4 witness: a concrete clue set and path. -/
theorem clue_C4_witness :
    ∃ p ps rs, (AgentState.mk [((0 : ℚ), 0)] "s").path = p :: ps
      ∧ rank_clues [((2 : ℤ), "y")] (AgentState.mk [((0 : ℚ), 0)] "s")
        = Response.ranked rs
      ∧ rs.Perm ([((2 : ℤ), "y")].map (scoreClue p ps))
      ∧ ∀ cd ∈ [((2 : ℤ), "y")], (scoreClue p ps cd).id = cd.1
          ∧ (scoreClue p ps cd).description = cd.2 :=
  clue_C4 [((2 : ℤ), "y")] (AgentState.mk [((0 : ℚ), 0)] "s") (by simp)

/-- C1: with a non-empty path, every clue `(cid, desc)` of the source is
assigned the total score: type points looked up in `CLUE_TYPE_POINTS` with
default 5 for types not in the table, plus the proximity bonus
`max(0, 100 - d)` where `d` is the minimum Euclidean distance from the
clue's parsed coordinate to the path's vertices. -/
theorem clue_C1 (kb : List (Int × String)) (st : AgentState) (cid : Int) (desc : String)
    (p : Coord) (ps : List Coord)
    (hmem : (cid, desc) ∈ kb) (hpath : st.path = p :: ps) :
    ∃ d rs, _min_distance_to_path st.path (_parse_clue desc).2 = some d
      ∧ rank_clues kb st = Response.ranked rs
      ∧ RankedClue.mk cid desc
          ((((List.lookup (_parse_clue desc).1 CLUE_TYPE_POINTS).getD 5 : ℕ) : ℝ)
            + max 0 (100 - d)) ∈ rs := by
  refine ⟨_min_distance_cons (_parse_clue desc).2 p ps,
    sortRanked (kb.map (scoreClue p ps)), ?_, ?_, ?_⟩
  · unfold _min_distance_to_path
    rw [hpath]
  · unfold rank_clues
    rw [hpath]
  · have hmm : scoreClue p ps (cid, desc) ∈ kb.map (scoreClue p ps) :=
      List.mem_map_of_mem (scoreClue p ps) hmem
    have hin : scoreClue p ps (cid, desc) ∈ sortRanked (kb.map (scoreClue p ps)) := by
      unfold sortRanked
      exact (List.mergeSort_perm (kb.map (scoreClue p ps))
        (fun a b => decide (b.score ≤ a.score))).mem_iff.mpr hmm
    have heq : scoreClue p ps (cid, desc)
        = RankedClue.mk cid desc
            ((((List.lookup (_parse_clue desc).1 CLUE_TYPE_POINTS).getD 5 : ℕ) : ℝ)
              + max 0 (100 - _min_distance_cons (_parse_clue desc).2 p ps)) := by
      simp only [scoreClue]
      rw [lookup_unknown_default]
    rw [heq] at hin
    exact hin

/-- C1 witness: the spec's concrete example — path `[(0, 0)]` and clue
`"IR signature at 0,0"` — gets total score `30 + max(0, 100 - 0) = 130`. -/
theorem clue_C1_witness :
    ∃ rs, rank_clues [((1 : ℤ), "IR signature at 0,0")]
        (AgentState.mk [((0 : ℚ), 0)] "initialized") = Response.ranked rs
      ∧ RankedClue.mk 1 "IR signature at 0,0" 130 ∈ rs := by
  obtain ⟨d, rs, hd, hr, hm⟩ := clue_C1 [((1 : ℤ), "IR signature at 0,0")]
    (AgentState.mk [((0 : ℚ), 0)] "initialized") 1 "IR signature at 0,0"
    ((0 : ℚ), 0) [] (by simp) rfl
  have hp2 : (_parse_clue "IR signature at 0,0").2 = ((0 : ℚ), 0) := by decide
  rw [hp2] at hd
  have hsome : _min_distance_to_path [((0 : ℚ), 0)] ((0 : ℚ), 0)
      = some (_min_distance_cons ((0 : ℚ), 0) ((0 : ℚ), 0) []) := rfl
  rw [hsome] at hd
  have hd0 : d = 0 := by
    rw [← Option.some.inj hd]
    unfold _min_distance_cons
    show ((List.map (_euclidean_distance ((0 : ℚ), 0)) []).foldl min
      (_euclidean_distance ((0 : ℚ), 0) ((0 : ℚ), 0))) = 0
    unfold _euclidean_distance
    norm_num [Real.sqrt_zero]
  have h30 : (List.lookup (_parse_clue "IR signature at 0,0").1 CLUE_TYPE_POINTS).getD 5
      = 30 := by decide
  rw [h30, hd0] at hm
  have hsc : (((30 : ℕ) : ℝ) + max 0 ((100 : ℝ) - 0)) = 130 := by
    rw [sub_zero, max_eq_right (by norm_num : (0 : ℝ) ≤ 100)]
    norm_num
  rw [hsc] at hm
  exact ⟨rs, hr, hm⟩
